import Mathlib

/-!
Verification of the combat-resolution, progression and turn-mode core of the
RoguePython repository against its natural-language specification.

The Python sources are shallowly embedded: Python integers become `Int`
(arbitrary precision, with floor division `Int.fdiv` for the `//` operator),
`random.randint` draws become explicit parameters, attributes that may be
unset (and whose read raises `AttributeError`) become `Option` values, and
methods become pure functions on explicit state.  `sys.maxsize` is the value
CPython reports on a 64-bit platform.
-/

namespace RoguePython

/-- CPython's `sys.maxsize` on a 64-bit platform. -/
def sysMaxsize : Int := 2 ^ 63 - 1

/-- Embeds `fighter_classes.FighterClass` (same constructors as
`player_classes.PlayerClass` in `src/player_classes.py`). -/
inductive FighterClass
  | warrior
  | rogue
  | mage
deriving DecidableEq, Repr

/-- Embeds `WeaponType` from `src/weapon_types.py`. -/
inductive WeaponType
  | strength
  | agility
  | finesse
  | magic
deriving DecidableEq, Repr

/-- Embeds `EquipmentSlot` from `src/equipment_slots.py`. -/
inductive EquipmentSlot
  | head
  | armor
  | mainhand
  | offhand
  | trinket1
  | trinket2
deriving DecidableEq, Repr

/-- Embeds `EquipmentType` from `src/equipment_types.py`. -/
inductive EquipmentType
  | weapon
  | armor
  | head
  | trinket
  | offhand
deriving DecidableEq, Repr

/-- Embeds the data fields of `components.equippable.Weapon`
(`src/components/equippable.py`). -/
structure Weapon where
  weapon_type : WeaponType
  min_damage : Int
  max_damage : Int
  attack_bonus : Int
  damage_bonus : Int
  two_handed : Bool
  offhand : Bool
deriving DecidableEq, Repr

/-- Embeds the data fields of `components.equippable.Armor`; its
`equipment_type` is a constructor argument (ARMOR for body armor, HEAD for
helmets). -/
structure ArmorPiece where
  equipment_type : EquipmentType
  armor_bonus : Int
  agility_penalty : Int
deriving DecidableEq, Repr

/-- An equippable item is a `Weapon` or an `Armor`
(`src/components/equippable.py`). -/
inductive Equippable
  | weapon (w : Weapon)
  | armor (a : ArmorPiece)
deriving DecidableEq, Repr

/-- Embeds the `equipment_type` attribute: `Weapon.__init__` always passes
`EquipmentType.WEAPON`; `Armor` stores its constructor argument. -/
def Equippable.equipment_type : Equippable → EquipmentType
  | .weapon _ => .weapon
  | .armor a => a.equipment_type

/-- Embeds `Equipment.items`, the dict from each of the six fixed slots to the
optionally equipped `Equippable` (`src/components/equipment.py`). -/
structure SlotMap where
  head : Option Equippable
  armor : Option Equippable
  mainhand : Option Equippable
  offhand : Option Equippable
  trinket1 : Option Equippable
  trinket2 : Option Equippable
deriving DecidableEq, Repr

def SlotMap.get (m : SlotMap) : EquipmentSlot → Option Equippable
  | .head => m.head
  | .armor => m.armor
  | .mainhand => m.mainhand
  | .offhand => m.offhand
  | .trinket1 => m.trinket1
  | .trinket2 => m.trinket2

def SlotMap.set (m : SlotMap) (slot : EquipmentSlot) (v : Option Equippable) : SlotMap :=
  match slot with
  | .head => { m with head := v }
  | .armor => { m with armor := v }
  | .mainhand => { m with mainhand := v }
  | .offhand => { m with offhand := v }
  | .trinket1 => { m with trinket1 := v }
  | .trinket2 => { m with trinket2 := v }

/-- The three per-hand-slot weapon figures (`mainhand_attack_bonus`,
`mainhand_min_damage`, `mainhand_max_damage` and their offhand twins) of
`Equipment`.  In the source these are bare class-level annotations that
`Equipment.__init__` never assigns; they are always assigned together, so
they are grouped here, and `none` models the unset state in which a read
raises `AttributeError`. -/
structure HandFigures where
  attack_bonus : Int
  min_damage : Int
  max_damage : Int
deriving DecidableEq, Repr

/-- Embeds `components.equipment.Equipment` (`src/components/equipment.py`).
`mainhandFig`/`offhandFig` group the six per-slot weapon figures, `none`
standing for the not-yet-assigned attributes. -/
structure Equipment where
  items : SlotMap
  strength_bonus : Int
  perseverance_bonus : Int
  agility_bonus : Int
  magic_bonus : Int
  armor_bonus : Int
  avoidance_bonus : Int
  spell_attack_bonus : Int
  mainhandFig : Option HandFigures
  offhandFig : Option HandFigures
deriving DecidableEq, Repr

/-- Embeds `Equipment.__init__`: the items dict maps every slot to None and
the seven running totals are set to 0; the per-slot weapon figures are left
unassigned. -/
def Equipment.init : Equipment where
  items := ⟨none, none, none, none, none, none⟩
  strength_bonus := 0
  perseverance_bonus := 0
  agility_bonus := 0
  magic_bonus := 0
  armor_bonus := 0
  avoidance_bonus := 0
  spell_attack_bonus := 0
  mainhandFig := none
  offhandFig := none

/-- Embeds `Equipment.item_is_equipped`. -/
def Equipment.item_is_equipped (e : Equipment) (slot : EquipmentSlot) : Bool :=
  (e.items.get slot).isSome

/-- Embeds `Equippable.on_equip`: `Weapon` inherits the no-op, `Armor` adds
its armor bonus and subtracts its agility penalty from the running totals. -/
def Equipment.on_equip (e : Equipment) : Equippable → Equipment
  | .weapon _ => e
  | .armor a =>
      { e with armor_bonus := e.armor_bonus + a.armor_bonus
               agility_bonus := e.agility_bonus - a.agility_penalty }

/-- Embeds `Equippable.on_unequip`, the inverse contribution. -/
def Equipment.on_unequip (e : Equipment) : Equippable → Equipment
  | .weapon _ => e
  | .armor a =>
      { e with armor_bonus := e.armor_bonus - a.armor_bonus
               agility_bonus := e.agility_bonus + a.agility_penalty }

/-- Embeds `Equipment.unequip_from_slot` (`src/components/equipment.py`
lines 94-112).  Moving the item back to the inventory and the optional
message are ownership/narration effects with no bearing on the tracked
bonuses and are not modelled.  On an empty slot the method is a no-op.
For a HAND slot the figure reset at lines 103-109 reads
`self.parent.fighter.strength`, but `Equipment.parent` is the `Fighter`
itself (`fighter.py` line 94) and `Fighter` has no `fighter` attribute, so
the reset raises `AttributeError` AFTER the slot was cleared and
`on_unequip` ran: `Except.error` carries that partially-mutated state. -/
def Equipment.unequip_from_slot (e : Equipment) (slot : EquipmentSlot) :
    Except Equipment Equipment :=
  match e.items.get slot with
  | none => .ok e
  | some current =>
      let e1 := { e with items := e.items.set slot none }
      let e2 := e1.on_unequip current
      match slot with
      | .mainhand => .error e2
      | .offhand => .error e2
      | _ => .ok e2

/-- Embeds `Equipment.equip_to_slot` (`src/components/equipment.py`
lines 61-92).  Removing the item from the inventory and the optional message
do not affect the tracked bonuses and are not modelled.  `Except.error`
models an `AttributeError` escaping with the state mutated so far: from the
inner `unequip_from_slot` when the target slot is occupied, from reading
`item.equippable.max_damage` (absent on `Armor`) for a hand slot, or from
the two-handed off-hand displacement (itself an unequip of a hand slot).
The `two_handed` attribute is only reached for a weapon in the main hand,
mirroring the short-circuit of the conjunction in the source. -/
def Equipment.equip_to_slot (e : Equipment) (slot : EquipmentSlot)
    (item : Equippable) : Except Equipment Equipment :=
  match (if (e.items.get slot).isSome then e.unequip_from_slot slot else .ok e) with
  | .error e0 => .error e0
  | .ok e0 =>
      let e1 := { e0 with items := e0.items.set slot (some item) }
      let e2 := e1.on_equip item
      match slot, item with
      | .mainhand, .weapon w =>
          let fig : HandFigures :=
            ⟨w.attack_bonus, w.min_damage + w.damage_bonus, w.max_damage + w.damage_bonus⟩
          let e3 := { e2 with mainhandFig := some fig }
          if w.two_handed ∧ (e3.items.get .offhand).isSome
          then e3.unequip_from_slot .offhand
          else .ok e3
      | .mainhand, .armor _ => .error e2
      | .offhand, .weapon w =>
          let fig : HandFigures :=
            ⟨w.attack_bonus, w.min_damage + w.damage_bonus, w.max_damage + w.damage_bonus⟩
          .ok { e2 with offhandFig := some fig }
      | .offhand, .armor _ => .error e2
      | _, _ => .ok e2

/-- Embeds `components.level.Level` (`src/components/level.py`). -/
structure Level where
  current_level : Int
  current_xp : Int
  level_up_base : Int
  level_up_factor : Int
  xp_given : Int
deriving DecidableEq, Repr

/-- Embeds the `Level.experience_to_next_level` property. -/
def Level.experience_to_next_level (l : Level) : Int :=
  l.level_up_base + l.current_level * l.level_up_factor

/-- Embeds the `Level.requires_level_up` property. -/
def Level.requires_level_up (l : Level) : Bool :=
  l.experience_to_next_level ≤ l.current_xp

/-- Embeds `Level.add_xp`: a no-op when the grant is zero or no level-up cost
is configured, otherwise the XP is added.  The narration messages it logs do
not change the progression state and are not modelled. -/
def Level.add_xp (l : Level) (xp : Int) : Level :=
  if xp = 0 ∨ l.level_up_base = 0 then l
  else { l with current_xp := l.current_xp + xp }

/-- Embeds `components.fighter.Fighter` (`src/components/fighter.py`),
restricted to the state the verified claims depend on.  `hp` is the private
backing field behind the clamping property setter.  `ownAi` models whether
`self.ai` is set (cleared by `die`, it backs `is_alive`); `groupAi` models
whether `self.parent.ai` — the AI object of the owning `FighterGroup` — is
set, which is what the hp setter's death guard actually tests.
`proficiency_attr` models the `proficiency` attribute that
`Level.increase_level` writes onto the fighter (distinct from the
`Level.proficiency` property used by the attack formulas). -/
structure Fighter where
  fighter_class : FighterClass
  strength : Int
  perseverance : Int
  agility : Int
  magic : Int
  min_hp_per_level : Int
  max_hp_per_level : Int
  hp : Int
  max_hp : Int
  level : Level
  equipment : Equipment
  weapon_crit_threshold : Int
  spell_crit_threshold : Int
  ownAi : Bool
  groupAi : Bool
  proficiency_attr : Option Int
deriving DecidableEq, Repr

/-- Embeds the `Level.proficiency` property: 1 + level // 4. -/
def Level.proficiency (l : Level) : Int :=
  1 + l.current_level.fdiv 4

/-- Embeds the `Fighter.avoidance` property. -/
def Fighter.avoidance (f : Fighter) : Int :=
  10 + (f.agility + f.equipment.agility_bonus).fdiv 2 + f.equipment.avoidance_bonus

/-- Embeds the `Fighter.armor` property (the equipment object is always
truthy, so the else branch of the source is dead). -/
def Fighter.armor (f : Fighter) : Int :=
  f.equipment.armor_bonus

/-- The world state surrounding one fighter that the hp setter and `die` can
touch: the fighter itself, the count of death messages added to the message
log, and the player's progression record that `die` grants XP to. -/
structure FighterWorld where
  f : Fighter
  deathMessages : Nat
  playerLevel : Level
deriving DecidableEq, Repr

/-- Embeds `Fighter.die` (`src/components/fighter.py` lines 173-188): one
death message is logged, the fighter's own AI is cleared (making `is_alive`
false), and `xp_given` is granted to the player's progression record.  The
corpse re-skin (char, color, name) is cosmetic and not modelled. -/
def FighterWorld.die (w : FighterWorld) : FighterWorld :=
  { w with
    f := { w.f with ownAi := false }
    deathMessages := w.deathMessages + 1
    playerLevel := w.playerLevel.add_xp w.f.level.xp_given }

/-- Embeds the `Fighter.hp` property setter (`src/components/fighter.py`
lines 111-115): the backing field is clamped to the interval from 0 to
`max_hp`, and `die` is invoked when the result is 0 while `self.parent.ai`
— the owning group's AI, not the fighter's own — is set. -/
def FighterWorld.hpSet (w : FighterWorld) (value : Int) : FighterWorld :=
  let w1 := { w with f := { w.f with hp := max 0 (min value w.f.max_hp) } }
  if w1.f.hp = 0 ∧ w1.f.groupAi then w1.die else w1

/-- Embeds `Fighter.take_damage`. -/
def FighterWorld.take_damage (w : FighterWorld) (amount : Int) : FighterWorld :=
  w.hpSet (w.f.hp - amount)

/-- Embeds `Fighter.heal`, returning the new world and the amount recovered. -/
def FighterWorld.heal (w : FighterWorld) (amount : Int) : FighterWorld × Int :=
  if w.f.hp = w.f.max_hp then (w, 0)
  else
    let new_hp_value := w.f.hp + amount
    let new_hp_value := if new_hp_value > w.f.max_hp then w.f.max_hp else new_hp_value
    let amount_recovered := new_hp_value - w.f.hp
    (w.hpSet new_hp_value, amount_recovered)

/-- One call in a sequence of `take_damage`/`heal` invocations. -/
inductive HpOp
  | damage (amount : Int)
  | healOp (amount : Int)
deriving DecidableEq, Repr

def FighterWorld.applyHpOp (w : FighterWorld) : HpOp → FighterWorld
  | .damage a => w.take_damage a
  | .healOp a => (w.heal a).1

def FighterWorld.applyHpOps (w : FighterWorld) : List HpOp → FighterWorld
  | [] => w
  | op :: rest => (w.applyHpOp op).applyHpOps rest

theorem hpSet_max_hp (w : FighterWorld) (v : Int) : (w.hpSet v).f.max_hp = w.f.max_hp := by
  unfold FighterWorld.hpSet FighterWorld.die
  dsimp only
  split <;> rfl

theorem hpSet_hp_bounds (w : FighterWorld) (v : Int) (hmax : 0 ≤ w.f.max_hp) :
    0 ≤ (w.hpSet v).f.hp ∧ (w.hpSet v).f.hp ≤ (w.hpSet v).f.max_hp := by
  unfold FighterWorld.hpSet FighterWorld.die
  dsimp only
  split <;> constructor <;> simp <;> omega

theorem applyHpOp_max_hp (w : FighterWorld) (op : HpOp) :
    (w.applyHpOp op).f.max_hp = w.f.max_hp := by
  cases op with
  | damage a => exact hpSet_max_hp _ _
  | healOp a =>
      unfold FighterWorld.applyHpOp FighterWorld.heal
      dsimp only
      split
      · rfl
      · exact hpSet_max_hp _ _

theorem applyHpOp_hp_bounds (w : FighterWorld) (op : HpOp) (hmax : 0 ≤ w.f.max_hp) :
    0 ≤ (w.applyHpOp op).f.hp ∧ (w.applyHpOp op).f.hp ≤ (w.applyHpOp op).f.max_hp := by
  cases op with
  | damage a => exact hpSet_hp_bounds _ _ hmax
  | healOp a =>
      unfold FighterWorld.applyHpOp FighterWorld.heal
      dsimp only
      split
      · rename_i h
        constructor <;> simp <;> omega
      · exact hpSet_hp_bounds _ _ hmax

/-- Embeds the static `Fighter.roll_attack` (`src/components/fighter.py`
lines 223-231).  `d1` is the first `random.randint(1, 20)` draw and `d2` the
second, consumed only when `advantage` is set.  A post-advantage roll at or
above the crit threshold yields the `sys.maxsize` sentinel, otherwise the
roll plus the attack bonus. -/
def roll_attack (crit_threshold attack_bonus : Int) (d1 d2 : Int) (advantage : Bool) : Int :=
  let roll := if advantage then max d1 d2 else d1
  if crit_threshold ≤ roll then sysMaxsize else roll + attack_bonus

/-- Embeds `Fighter.weapon_base_attack_bonus` (`src/components/fighter.py`
lines 155-171): the base is always the agility bonus (agility plus equipment
agility bonus, floor-halved), and the class proficiency bonus is added when
the equipped item has a `weapon_type` attribute matching the class (an armor
piece fails the `hasattr` probe and an empty slot is skipped). -/
def Fighter.weapon_base_attack_bonus (f : Fighter) (slot : EquipmentSlot) : Int :=
  let bonus := (f.agility + f.equipment.agility_bonus).fdiv 2
  match f.equipment.items.get slot with
  | some (.weapon w) =>
      if f.fighter_class = .rogue ∧
          (w.weapon_type = .agility ∨ w.weapon_type = .finesse) then
        bonus + f.level.proficiency
      else if f.fighter_class = .warrior ∧
          (w.weapon_type = .strength ∨ w.weapon_type = .finesse) then
        bonus + f.level.proficiency
      else if f.fighter_class = .mage ∧ w.weapon_type = .magic then
        bonus + f.level.proficiency
      else bonus
  | _ => bonus

/-- Embeds the `Fighter.mainhand_attack_bonus` property; `none` models the
`AttributeError` raised when `Equipment.mainhand_attack_bonus` was never
assigned. -/
def Fighter.mainhand_attack_bonus? (f : Fighter) : Option Int :=
  f.equipment.mainhandFig.map
    (fun fig => f.weapon_base_attack_bonus .mainhand + fig.attack_bonus)

/-- Embeds the `Fighter.offhand_attack_bonus` property. -/
def Fighter.offhand_attack_bonus? (f : Fighter) : Option Int :=
  f.equipment.offhandFig.map
    (fun fig => f.weapon_base_attack_bonus .offhand + fig.attack_bonus)

/-- Embeds `Fighter.roll_weapon_attack` (`src/components/fighter.py`
lines 233-239).  For the off-hand the source dereferences
`self.equipment.items[slot].equipment_type`, so an empty off-hand raises
(`none`); a non-weapon off-hand item falls to the `else` branch returning 0. -/
def Fighter.roll_weapon_attack? (f : Fighter) (slot : EquipmentSlot)
    (d1 d2 : Int) (advantage : Bool) : Option Int :=
  match slot with
  | .mainhand =>
      f.mainhand_attack_bonus?.map
        (fun b => roll_attack f.weapon_crit_threshold b d1 d2 advantage)
  | .offhand =>
      match f.equipment.items.get .offhand with
      | none => none
      | some it =>
          if it.equipment_type = EquipmentType.weapon then
            f.offhand_attack_bonus?.map
              (fun b => roll_attack f.weapon_crit_threshold b d1 d2 advantage)
          else some 0
  | _ => some 0

/-- Embeds `Fighter.roll_weapon_damage` (`src/components/fighter.py`
lines 262-270).  `draw` models the `random.randint(min_damage, max_damage)`
result for the slot's (possibly equipment-modified) damage range; the read of
the range attributes raises when they were never assigned (`none`), and for
the off-hand an empty slot raises on `.equipment_type` while a non-weapon
item returns 0. -/
def Fighter.roll_weapon_damage? (f : Fighter) (slot : EquipmentSlot) (draw : Int) : Option Int :=
  match slot with
  | .mainhand =>
      f.equipment.mainhandFig.map
        (fun _ => (f.strength + f.equipment.strength_bonus).fdiv 2 + draw)
  | .offhand =>
      match f.equipment.items.get .offhand with
      | none => none
      | some it =>
          if it.equipment_type = EquipmentType.weapon then
            f.equipment.offhandFig.map
              (fun _ => (f.strength + f.equipment.strength_bonus).fdiv 2 + draw)
          else some 0
  | _ => some 0

/-- Whether the slot holds an item whose `equipment_type` is WEAPON: the
negation of `WeaponAttack.perform`'s off-hand suppression disjunction. -/
def Equipment.slotHoldsWeapon (e : Equipment) (slot : EquipmentSlot) : Bool :=
  match e.items.get slot with
  | some it => decide (it.equipment_type = EquipmentType.weapon)
  | none => false

/-- The three distinct narration messages `WeaponAttack.perform` can log for
a resolved attack: a miss, a hit for a stated number of hit points, or a hit
for no damage. -/
inductive AttackMsg
  | missMsg
  | hitMsg (damage : Int)
  | noDamageMsg
deriving DecidableEq, Repr

/-- The observable result of `WeaponAttack.perform`: either the silent
off-hand suppression, or a resolved attack carrying the critical-narration
flag, the final attack and damage values, the logged message and the
defender's world afterwards. -/
inductive AttackOutcome
  | suppressed (defender : FighterWorld)
  | resolved (crit : Bool) (attack damage : Int) (msg : AttackMsg) (defender : FighterWorld)
deriving DecidableEq, Repr

/-- Embeds `WeaponAttack.perform` (`src/actions.py` lines 244-281).
`dAtk1`/`dAtk2` are the d20 draws of the attack roll, `drawCrit` the damage
die of the critical branch and `drawReg` the damage die of the unconditional
damage line.  `none` models an `AttributeError` escaping from the unset
equipment figures.  Note that the source subtracts the defender's avoidance
from the attack value after, and regardless of, the critical branch. -/
def WeaponAttack.perform (attacker : Fighter) (dw : FighterWorld) (slot : EquipmentSlot)
    (advantage : Bool) (dAtk1 dAtk2 drawCrit drawReg : Int) : Option AttackOutcome :=
  if slot = EquipmentSlot.offhand ∧ attacker.equipment.slotHoldsWeapon .offhand = false then
    some (.suppressed dw)
  else
    match attacker.roll_weapon_attack? slot dAtk1 dAtk2 advantage with
    | none => none
    | some attack0 =>
        let crit := decide (attack0 = sysMaxsize)
        match (if attack0 = sysMaxsize then attacker.roll_weapon_damage? slot drawCrit else some 0) with
        | none => none
        | some damage0 =>
            let attack1 := attack0 - dw.f.avoidance
            match attacker.roll_weapon_damage? slot drawReg with
            | none => none
            | some reg =>
                let damage1 := damage0 + reg - dw.f.armor
                if attack1 < 0 then
                  some (.resolved crit attack1 damage1 .missMsg dw)
                else if 0 < damage1 then
                  some (.resolved crit attack1 damage1 (.hitMsg damage1)
                    (dw.hpSet (dw.f.hp - damage1)))
                else
                  some (.resolved crit attack1 damage1 .noDamageMsg dw)

theorem hpSet_hp (w : FighterWorld) (v : Int) :
    (w.hpSet v).f.hp = max 0 (min v w.f.max_hp) := by
  unfold FighterWorld.hpSet FighterWorld.die
  dsimp only
  split <;> rfl

/-- A sample world used to instantiate hypotheses of the clamping theorem:
a rogue at 7 of 10 hit points with empty equipment. -/
def sampleWorldC3 : FighterWorld where
  f :=
    { fighter_class := .rogue
      strength := 3, perseverance := 2, agility := 6, magic := 1
      min_hp_per_level := 10, max_hp_per_level := 15
      hp := 7, max_hp := 10
      level := ⟨1, 0, 200, 150, 0⟩
      equipment := Equipment.init
      weapon_crit_threshold := 20, spell_crit_threshold := 20
      ownAi := true, groupAi := true
      proficiency_attr := none }
  deathMessages := 0
  playerLevel := ⟨1, 0, 200, 150, 0⟩

/-- C3: for every combatant with a nonnegative maximum HP and every sequence
of take_damage and heal calls with arbitrary integer amounts, the current HP
satisfies 0 ≤ hp ≤ max_hp after the sequence (the hp setter clamps every
assignment into the interval from 0 to max HP, and heal either skips the
assignment at full HP or goes through the same setter). -/
theorem takeDamage_heal_hp_clamped :
    ∀ (ops : List HpOp) (w : FighterWorld), 0 ≤ w.f.max_hp → ops ≠ [] →
      0 ≤ (w.applyHpOps ops).f.hp ∧
        (w.applyHpOps ops).f.hp ≤ (w.applyHpOps ops).f.max_hp := by
  intro ops
  induction ops with
  | nil => intro w _ hne; exact absurd rfl hne
  | cons op rest ih =>
      intro w hmax _
      cases rest with
      | nil =>
          simpa [FighterWorld.applyHpOps] using applyHpOp_hp_bounds w op hmax
      | cons op2 rest2 =>
          have h2 := ih (w.applyHpOp op)
            (by rw [applyHpOp_max_hp]; exact hmax) (by simp)
          simpa [FighterWorld.applyHpOps] using h2

/-- Witness for C3 at a concrete world and a concrete two-call sequence. -/
theorem takeDamage_heal_hp_clamped_witness :
    0 ≤ sampleWorldC3.f.max_hp ∧
      ([HpOp.damage 30, HpOp.healOp 100] ≠ ([] : List HpOp)) ∧
      (0 ≤ (sampleWorldC3.applyHpOps [HpOp.damage 30, HpOp.healOp 100]).f.hp ∧
        (sampleWorldC3.applyHpOps [HpOp.damage 30, HpOp.healOp 100]).f.hp ≤
          (sampleWorldC3.applyHpOps [HpOp.damage 30, HpOp.healOp 100]).f.max_hp) :=
  ⟨by decide, by decide,
    takeDamage_heal_hp_clamped [HpOp.damage 30, HpOp.healOp 100] sampleWorldC3
      (by decide) (by decide)⟩

/-- A combatant that has already died once: HP is 0, its own AI was cleared
by `die` (so `is_alive` is false), its owning group's AI object is still set
(the source never clears a group's AI), one death message has been logged
and its 50 XP were already granted to the player. -/
def deadWorldC4 : FighterWorld where
  f :=
    { fighter_class := .warrior
      strength := 4, perseverance := 2, agility := 2, magic := 1
      min_hp_per_level := 10, max_hp_per_level := 15
      hp := 0, max_hp := 12
      level := ⟨1, 0, 0, 150, 50⟩
      equipment := Equipment.init
      weapon_crit_threshold := 20, spell_crit_threshold := 20
      ownAi := false, groupAi := true
      proficiency_attr := none }
  deathMessages := 1
  playerLevel := ⟨1, 50, 200, 150, 0⟩

/-- C4 (code evaluated at the failing input): a combatant already at 0 HP
whose `die` has already run takes 5 further damage, and `die` runs AGAIN —
a second death message is logged and the player is granted the kill XP a
second time — because the hp setter's guard tests the owning group's AI
(`self.parent.ai`), which `die` never clears; `die` clears only the
fighter's own AI.  The claim (and the spec's exactly-once death scenario)
says no second death may be triggered. -/
theorem die_retriggered_at_zero_hp :
    (deadWorldC4.take_damage 5).deathMessages = 2 ∧
      (deadWorldC4.take_damage 5).playerLevel.current_xp = 100 ∧
      (deadWorldC4.take_damage 5).f.hp = 0 := by
  decide

/-- C1: every weapon attack that proceeds past the off-hand suppression check
(and resolves without an attribute error) has exactly one of three outcomes,
determined by the final attack and damage values: a negative attack is a miss
leaving the defender's HP unchanged; a nonnegative attack with positive
damage reduces the defender's HP by the damage, clamped at 0; a nonnegative
attack with nonpositive damage leaves HP unchanged; and the three outcomes
log three pairwise distinct narration messages. -/
theorem weaponAttack_outcome_trichotomy
    (attacker : Fighter) (dw : FighterWorld) (slot : EquipmentSlot) (advantage : Bool)
    (dAtk1 dAtk2 drawCrit drawReg : Int)
    (crit : Bool) (atk dmg : Int) (msg : AttackMsg) (dw' : FighterWorld)
    (hhp : dw.f.hp ≤ dw.f.max_hp)
    (hres : WeaponAttack.perform attacker dw slot advantage dAtk1 dAtk2 drawCrit drawReg =
      some (AttackOutcome.resolved crit atk dmg msg dw')) :
    (atk < 0 → msg = AttackMsg.missMsg ∧ dw'.f.hp = dw.f.hp) ∧
    (0 ≤ atk → 0 < dmg → msg = AttackMsg.hitMsg dmg ∧ dw'.f.hp = max 0 (dw.f.hp - dmg)) ∧
    (0 ≤ atk → dmg ≤ 0 → msg = AttackMsg.noDamageMsg ∧ dw'.f.hp = dw.f.hp) ∧
    (atk < 0 ∨ (0 ≤ atk ∧ 0 < dmg) ∨ (0 ≤ atk ∧ dmg ≤ 0)) ∧
    (AttackMsg.missMsg ≠ AttackMsg.hitMsg dmg ∧ AttackMsg.missMsg ≠ AttackMsg.noDamageMsg ∧
      AttackMsg.hitMsg dmg ≠ AttackMsg.noDamageMsg) := by
  simp only [WeaponAttack.perform] at hres
  split at hres
  · simp at hres
  · split at hres
    · exact Option.noConfusion hres
    · split at hres
      · exact Option.noConfusion hres
      · split at hres
        · exact Option.noConfusion hres
        · split at hres
          · simp only [Option.some.injEq, AttackOutcome.resolved.injEq] at hres
            obtain ⟨hc, ha, hd, hm, hw⟩ := hres
            subst ha hd hm hw
            rename_i hlt
            refine ⟨fun _ => ⟨rfl, rfl⟩, fun h0 _ => absurd hlt (by omega), fun h0 _ => absurd hlt (by omega), by omega, by simp, by simp, by simp⟩
          · split at hres
            · simp only [Option.some.injEq, AttackOutcome.resolved.injEq] at hres
              obtain ⟨hc, ha, hd, hm, hw⟩ := hres
              subst ha hd hm hw
              rename_i hnlt hpos
              refine ⟨fun h => absurd h hnlt, fun _ _ => ⟨rfl, ?_⟩, fun _ hle => absurd hpos (by omega), by omega, by simp, by simp, by simp⟩
              rw [hpSet_hp]
              omega
            · simp only [Option.some.injEq, AttackOutcome.resolved.injEq] at hres
              obtain ⟨hc, ha, hd, hm, hw⟩ := hres
              subst ha hd hm hw
              rename_i hnlt hnpos
              refine ⟨fun h => absurd h hnlt, fun _ hp2 => absurd hp2 hnpos, fun _ _ => ⟨rfl, rfl⟩, by omega, by simp, by simp, by simp⟩

/-- A Strength-category one-handed weapon with damage 1-4 and no bonuses. -/
def clubWeapon : Weapon :=
  ⟨.strength, 1, 4, 0, 0, false, false⟩

/-- A Warrior with strength 4 and agility 2, level 1, a Strength weapon in
the main hand (figures as assigned by equipping it) and no other bonuses. -/
def warriorAttacker : Fighter where
  fighter_class := .warrior
  strength := 4
  perseverance := 2
  agility := 2
  magic := 1
  min_hp_per_level := 10
  max_hp_per_level := 15
  hp := 12
  max_hp := 12
  level := ⟨1, 0, 200, 150, 0⟩
  equipment :=
    { Equipment.init with
        items := ⟨none, none, some (.weapon clubWeapon), none, none, none⟩
        mainhandFig := some ⟨0, 1, 4⟩ }
  weapon_crit_threshold := 20
  spell_crit_threshold := 20
  ownAi := true
  groupAi := true
  proficiency_attr := none

/-- An unremarkable defender: agility 2, no equipment, 10 of 12 HP, so its
avoidance is 11 and its armor 0. -/
def plainDefender : FighterWorld where
  f :=
    { fighter_class := .rogue
      strength := 1, perseverance := 2, agility := 2, magic := 1
      min_hp_per_level := 10, max_hp_per_level := 15
      hp := 10, max_hp := 12
      level := ⟨1, 0, 0, 150, 35⟩
      equipment := Equipment.init
      weapon_crit_threshold := 20, spell_crit_threshold := 20
      ownAi := true, groupAi := true
      proficiency_attr := none }
  deathMessages := 0
  playerLevel := ⟨1, 0, 200, 150, 0⟩

/-- Witness for C1 at a concrete resolved hit: roll 15 against avoidance 11
with damage 5 out of 10 HP. -/
theorem weaponAttack_outcome_trichotomy_witness :
    plainDefender.f.hp ≤ plainDefender.f.max_hp ∧
      (WeaponAttack.perform warriorAttacker plainDefender .mainhand false 15 1 3 3 =
        some (AttackOutcome.resolved false 6 5 (AttackMsg.hitMsg 5)
          (plainDefender.hpSet (plainDefender.f.hp - 5)))) ∧
      ((0 : Int) ≤ 6 → (0 : Int) < 5 →
        AttackMsg.hitMsg 5 = AttackMsg.hitMsg 5 ∧
          (plainDefender.hpSet (plainDefender.f.hp - 5)).f.hp =
            max 0 (plainDefender.f.hp - 5)) :=
  ⟨by decide, by decide,
    (weaponAttack_outcome_trichotomy warriorAttacker plainDefender .mainhand false
      15 1 3 3 false 6 5 (AttackMsg.hitMsg 5)
      (plainDefender.hpSet (plainDefender.f.hp - 5))
      (by decide) (by decide)).2.1⟩

/-- A defender whose avoidance exceeds `sys.maxsize`: agility 2^64 - 2 makes
avoidance 10 + 2^63 - 1 = 2^63 + 9. -/
def hugeAvoidanceDefender : FighterWorld where
  f :=
    { fighter_class := .rogue
      strength := 1, perseverance := 2, agility := 2 ^ 64 - 2, magic := 1
      min_hp_per_level := 10, max_hp_per_level := 15
      hp := 10, max_hp := 12
      level := ⟨1, 0, 0, 150, 35⟩
      equipment := Equipment.init
      weapon_crit_threshold := 20, spell_crit_threshold := 20
      ownAi := true, groupAi := true
      proficiency_attr := none }
  deathMessages := 0
  playerLevel := ⟨1, 0, 200, 150, 0⟩

/-- Counterexample to C2 as stated: the attack roll returns the critical
sentinel (d20 = 20 at threshold 20), yet the attack is NOT a guaranteed hit
regardless of the defender's avoidance — the source subtracts the avoidance
from the sentinel after the critical branch, so a defender with avoidance
2^63 + 9 (greater than `sys.maxsize` = 2^63 - 1) turns the critical into a
miss: final attack value -10, a miss message, and unchanged HP. -/
theorem crit_not_guaranteed_hit_counterexample :
    warriorAttacker.roll_weapon_attack? .mainhand 20 1 false = some sysMaxsize ∧
      WeaponAttack.perform warriorAttacker hugeAvoidanceDefender .mainhand false 20 1 3 3 =
        some (AttackOutcome.resolved true (-10) 10 AttackMsg.missMsg hugeAvoidanceDefender) := by
  decide

/-- C2 (amended): for EVERY weapon attack (any slot) in which `roll_attack`
returns the critical sentinel, the defender's avoidance IS still subtracted
(after the critical branch), but as long as the avoidance is at most
`sys.maxsize` the attack value stays nonnegative, so the attack is a hit
(never the miss branch), narrated as a critical; the computed damage equals
the critical-branch weapon-damage roll plus the regular weapon-damage roll
minus the defender's armor, and it is applied to the defender's HP through
the clamping setter exactly when it is positive.  (The sentinel hypothesis
itself forces the slot to be a hand slot with assigned figures — other
slots roll 0.) -/
theorem crit_attack_resolution
    (attacker : Fighter) (dw : FighterWorld) (slot : EquipmentSlot) (advantage : Bool)
    (dAtk1 dAtk2 drawCrit drawReg : Int)
    (hcrit : attacker.roll_weapon_attack? slot dAtk1 dAtk2 advantage = some sysMaxsize)
    (havoid : dw.f.avoidance ≤ sysMaxsize)
    (dmg : Int)
    (hdmg : dmg = ((attacker.strength + attacker.equipment.strength_bonus).fdiv 2 + drawCrit) +
        ((attacker.strength + attacker.equipment.strength_bonus).fdiv 2 + drawReg) -
        dw.f.armor) :
    0 ≤ sysMaxsize - dw.f.avoidance ∧
      WeaponAttack.perform attacker dw slot advantage dAtk1 dAtk2 drawCrit drawReg =
        some (AttackOutcome.resolved true (sysMaxsize - dw.f.avoidance) dmg
          (if 0 < dmg then AttackMsg.hitMsg dmg else AttackMsg.noDamageMsg)
          (if 0 < dmg then dw.hpSet (dw.f.hp - dmg) else dw)) := by
  refine ⟨by omega, ?_⟩
  subst hdmg
  have hlt : ¬ (sysMaxsize - dw.f.avoidance < 0) := by omega
  cases slot
  case mainhand =>
    rcases hfig : attacker.equipment.mainhandFig with _ | fig
    · rw [show attacker.roll_weapon_attack? .mainhand dAtk1 dAtk2 advantage = none by
        simp [Fighter.roll_weapon_attack?, Fighter.mainhand_attack_bonus?, hfig]] at hcrit
      exact Option.noConfusion hcrit
    · simp only [WeaponAttack.perform, hcrit, Fighter.roll_weapon_damage?, hfig,
        Option.map_some']
      rw [if_neg (by simp)]
      rw [if_pos trivial]
      dsimp only
      rw [if_neg hlt]
      split <;> simp_all
  case offhand =>
    rcases hit : attacker.equipment.items.get .offhand with _ | it
    · rw [show attacker.roll_weapon_attack? .offhand dAtk1 dAtk2 advantage = none by
        simp [Fighter.roll_weapon_attack?, hit]] at hcrit
      exact Option.noConfusion hcrit
    · by_cases hty : it.equipment_type = EquipmentType.weapon
      · rcases hfig : attacker.equipment.offhandFig with _ | fig
        · rw [show attacker.roll_weapon_attack? .offhand dAtk1 dAtk2 advantage = none by
            simp [Fighter.roll_weapon_attack?, hit, hty, Fighter.offhand_attack_bonus?, hfig]]
            at hcrit
          exact Option.noConfusion hcrit
        · simp only [WeaponAttack.perform, Equipment.slotHoldsWeapon, hit, hty, hcrit,
            Fighter.roll_weapon_damage?, hfig, Option.map_some']
          simp only [eq_self_iff_true, if_true, decide_True, Bool.true_eq_false, and_false,
            if_false, and_true, true_and]
          rw [if_neg hlt]
          split <;> simp_all
      · rw [show attacker.roll_weapon_attack? .offhand dAtk1 dAtk2 advantage = some 0 by
          simp [Fighter.roll_weapon_attack?, hit, hty]] at hcrit
        exact absurd (Option.some.inj hcrit) (by decide)
  all_goals exact absurd (Option.some.inj hcrit) (by decide)

/-- Witness for the amended C2 at a concrete critical hit: d20 = 20 at
threshold 20 against avoidance 11, damage 10. -/
theorem crit_attack_resolution_witness :
    warriorAttacker.roll_weapon_attack? .mainhand 20 1 false = some sysMaxsize ∧
      plainDefender.f.avoidance ≤ sysMaxsize ∧
      ((10 : Int) =
        ((warriorAttacker.strength + warriorAttacker.equipment.strength_bonus).fdiv 2 + 3) +
          ((warriorAttacker.strength + warriorAttacker.equipment.strength_bonus).fdiv 2 + 3) -
          plainDefender.f.armor) ∧
      (0 ≤ sysMaxsize - plainDefender.f.avoidance ∧
        WeaponAttack.perform warriorAttacker plainDefender .mainhand false 20 1 3 3 =
          some (AttackOutcome.resolved true (sysMaxsize - plainDefender.f.avoidance) 10
            (if 0 < (10 : Int) then AttackMsg.hitMsg 10 else AttackMsg.noDamageMsg)
            (if 0 < (10 : Int) then plainDefender.hpSet (plainDefender.f.hp - 10)
             else plainDefender))) :=
  ⟨by decide, by decide, by decide,
    crit_attack_resolution warriorAttacker plainDefender .mainhand false 20 1 3 3
      (by decide) (by decide) 10 (by decide)⟩

/-- Counterexample to C8 as stated: with attack bonus 2^63 and the d20
stream drawing 5 then 20 at crit threshold 20, the advantaged call crits and
returns the sentinel 2^63 - 1, while the non-advantaged call returns
5 + 2^63, which is strictly GREATER — the advantaged result is numerically
less than the non-advantaged one, refuting the unconditional "greater than
or equal" claim. -/
theorem roll_attack_advantage_not_monotone_counterexample :
    roll_attack 20 (2 ^ 63) 5 20 true = sysMaxsize ∧
      roll_attack 20 (2 ^ 63) 5 20 false = 5 + 2 ^ 63 ∧
      roll_attack 20 (2 ^ 63) 5 20 true < roll_attack 20 (2 ^ 63) 5 20 false := by
  decide

/-- C8 (amended): for d20 draws in 1..20 and any attack bonus with
bonus + 20 at most `sys.maxsize` (true of every bonus within machine range;
without that bound a non-critical total can numerically exceed the critical
sentinel), `roll_attack` with advantage on the same draw stream is never
less favorable: its result is greater or equal, it crits whenever the
non-advantaged call crits, and it reaches every defense rating the
non-advantaged call reaches. -/
theorem roll_attack_advantage_monotone
    (crit bonus d1 d2 r : Int)
    (hd1l : 1 ≤ d1) (hd1u : d1 ≤ 20) (hd2l : 1 ≤ d2) (hd2u : d2 ≤ 20)
    (hbonus : bonus + 20 ≤ sysMaxsize) :
    roll_attack crit bonus d1 d2 false ≤ roll_attack crit bonus d1 d2 true ∧
      (roll_attack crit bonus d1 d2 false = sysMaxsize →
        roll_attack crit bonus d1 d2 true = sysMaxsize) ∧
      (r ≤ roll_attack crit bonus d1 d2 false → r ≤ roll_attack crit bonus d1 d2 true) := by
  have hf : roll_attack crit bonus d1 d2 false =
      if crit ≤ d1 then sysMaxsize else d1 + bonus := rfl
  have ht : roll_attack crit bonus d1 d2 true =
      if crit ≤ max d1 d2 then sysMaxsize else max d1 d2 + bonus := rfl
  rw [hf, ht]
  split_ifs <;> exact ⟨by omega, fun h => by omega, fun hr => by omega⟩

/-- Witness for the amended C8 at crit threshold 20, bonus 3, draws 5 and
17, defense rating 7. -/
theorem roll_attack_advantage_monotone_witness :
    (1 : Int) ≤ 5 ∧ (5 : Int) ≤ 20 ∧ (1 : Int) ≤ 17 ∧ (17 : Int) ≤ 20 ∧
      (3 : Int) + 20 ≤ sysMaxsize ∧
      (roll_attack 20 3 5 17 false ≤ roll_attack 20 3 5 17 true ∧
        (roll_attack 20 3 5 17 false = sysMaxsize →
          roll_attack 20 3 5 17 true = sysMaxsize) ∧
        ((7 : Int) ≤ roll_attack 20 3 5 17 false → (7 : Int) ≤ roll_attack 20 3 5 17 true)) :=
  ⟨by decide, by decide, by decide, by decide, by decide,
    roll_attack_advantage_monotone 20 3 5 17 7
      (by decide) (by decide) (by decide) (by decide) (by decide)⟩

/-- The attribute the claim calls "relevant to the weapon's category":
Strength for Strength weapons, Agility for Agility weapons, the higher of
the two for Finesse (per the `weapon_types.py` comment), Magic for Magic
weapons. -/
def claimRelevantAttr (f : Fighter) : WeaponType → Int
  | .strength => f.strength
  | .agility => f.agility
  | .finesse => max f.strength f.agility
  | .magic => f.magic

/-- The class/weapon-category proficiency table stated by the claim (and
implemented by the if-chain of `weapon_base_attack_bonus`): Warrior with
Strength or Finesse, Rogue with Agility or Finesse, Mage with Magic. -/
def claimProficient : FighterClass → WeaponType → Bool
  | .warrior, .strength => true
  | .warrior, .finesse => true
  | .rogue, .agility => true
  | .rogue, .finesse => true
  | .mage, .magic => true
  | _, _ => false

/-- The per-slot weapon attack bonus as the CLAIM words it (for comparison
with the code): the weapon-category-relevant attribute floor-halved, plus
the equipment's per-slot attack bonus, plus 1 + level // 4 when the class is
proficient with the weapon's category. -/
def claimedWeaponAttackBonus (f : Fighter) (slot : EquipmentSlot) : Option Int :=
  let figOpt :=
    match slot with
    | .mainhand => f.equipment.mainhandFig
    | .offhand => f.equipment.offhandFig
    | _ => none
  match f.equipment.items.get slot, figOpt with
  | some (.weapon w), some fig =>
      some ((claimRelevantAttr f w.weapon_type).fdiv 2 + fig.attack_bonus +
        (if claimProficient f.fighter_class w.weapon_type then
          1 + f.level.current_level.fdiv 4
         else 0))
  | _, _ => none

/-- Counterexample to C6 as stated: the level-1 Warrior with strength 4 and
agility 2 holding a Strength-category weapon (attack bonus 0).  The claim's
formula gives 4 // 2 + 0 + proficiency 1 = 3, but the code computes the base
from AGILITY — `weapon_base_attack_bonus` starts from
(agility + agility_bonus) // 2 for every weapon category — giving
2 // 2 + proficiency 1 + 0 = 2. -/
theorem weapon_attack_bonus_claim_counterexample :
    warriorAttacker.mainhand_attack_bonus? = some 2 ∧
      claimedWeaponAttackBonus warriorAttacker .mainhand = some 3 ∧
      warriorAttacker.mainhand_attack_bonus? ≠ claimedWeaponAttackBonus warriorAttacker .mainhand := by
  decide

/-- C6 (amended): the slot's weapon attack bonus is
(agility + agility bonus) // 2 — regardless of the weapon's category — plus
the proficiency bonus 1 + level // 4 exactly when the class is proficient
with the equipped weapon's category (Warrior with Strength or Finesse, Rogue
with Agility or Finesse, Mage with Magic), plus the equipment's per-slot
attack bonus; in particular the Warrior with strength 4 and agility 2 gets
2 // 2 = 1 from the attribute, for a total of 2 at level 1 with a bonus-free
Strength weapon. -/
theorem weapon_attack_bonus_agility_based (f : Fighter) (slot : EquipmentSlot) :
    (f.weapon_base_attack_bonus slot =
      (f.agility + f.equipment.agility_bonus).fdiv 2 +
        (match f.equipment.items.get slot with
         | some (.weapon w) =>
             if claimProficient f.fighter_class w.weapon_type then
               1 + f.level.current_level.fdiv 4
             else 0
         | _ => 0)) ∧
    (f.mainhand_attack_bonus? = f.equipment.mainhandFig.map (fun fig =>
      (f.agility + f.equipment.agility_bonus).fdiv 2 +
        (match f.equipment.items.get .mainhand with
         | some (.weapon w) =>
             if claimProficient f.fighter_class w.weapon_type then
               1 + f.level.current_level.fdiv 4
             else 0
         | _ => 0) + fig.attack_bonus)) ∧
    warriorAttacker.mainhand_attack_bonus? = some 2 := by
  have hbase : ∀ s : EquipmentSlot, f.weapon_base_attack_bonus s =
      (f.agility + f.equipment.agility_bonus).fdiv 2 +
        (match f.equipment.items.get s with
         | some (.weapon w) =>
             if claimProficient f.fighter_class w.weapon_type then
               1 + f.level.current_level.fdiv 4
             else 0
         | _ => 0) := by
    intro s
    unfold Fighter.weapon_base_attack_bonus Level.proficiency
    rcases h : f.equipment.items.get s with _ | it
    · simp
    · rcases it with w | a
      · rcases hw : w.weapon_type <;> rcases hc : f.fighter_class <;>
          simp [claimProficient, hw, hc]
      · simp
  refine ⟨hbase slot, ?_, by decide⟩
  unfold Fighter.mainhand_attack_bonus?
  rw [hbase .mainhand]

/-- An Agility-category dagger, usable in the off hand, damage 1-4. -/
def daggerWeapon : Weapon :=
  ⟨.agility, 1, 4, 0, 0, false, true⟩

/-- Equality of equip/unequip results is decidable (both payloads are the
decidable `Equipment`). -/
def exceptEquipmentDecEq : DecidableEq (Except Equipment Equipment)
  | .ok x, .ok y =>
      if h : x = y then isTrue (h ▸ rfl)
      else isFalse fun hc => h (Except.ok.inj hc)
  | .error x, .error y =>
      if h : x = y then isTrue (h ▸ rfl)
      else isFalse fun hc => h (Except.error.inj hc)
  | .ok _, .error _ => isFalse fun hc => Except.noConfusion hc
  | .error _, .ok _ => isFalse fun hc => Except.noConfusion hc

instance : DecidableEq (Except Equipment Equipment) := exceptEquipmentDecEq

/-- A light body-armor piece used to exercise a non-hand slot. -/
def lightArmorPiece : ArmorPiece := ⟨.armor, 1, 0⟩

/-- The equipment reached from a fresh `Equipment` by equipping
`lightArmorPiece` into the ARMOR slot. -/
def armorOnlyEquipment : Equipment :=
  { Equipment.init with
      items := ⟨none, some (.armor lightArmorPiece), none, none, none, none⟩
      armor_bonus := 1 }

/-- The state after equipping the dagger into the empty main hand of a
fresh `Equipment`: the slot holds the dagger and the figures are assigned. -/
def handEquipMid : Equipment :=
  { Equipment.init with
      items := ⟨none, none, some (.weapon daggerWeapon), none, none, none⟩
      mainhandFig := some ⟨0, 1, 4⟩ }

/-- The partially-mutated state at which the unequip of the dagger raises:
the slot was cleared and `on_unequip` ran, but the figure reset raised
`AttributeError`, leaving the dagger's figures in place. -/
def handEquipCrash : Equipment :=
  { Equipment.init with mainhandFig := some ⟨0, 1, 4⟩ }

/-- Counterexample to C5 as stated: equipping a dagger into an EMPTY main
hand succeeds, but the immediately following unequip raises
`AttributeError` at the baseline reset (`equipment.py` lines 103-109 read
`self.parent.fighter.strength` and `Equipment.parent` — the `Fighter`
itself — has no `fighter` attribute), aborting after the slot was cleared:
the round trip never completes, and the per-slot figures are left at the
dagger's values instead of being restored to their unset pre-equip state. -/
theorem equip_unequip_roundtrip_counterexample :
    Equipment.init.equip_to_slot .mainhand (.weapon daggerWeapon) = .ok handEquipMid ∧
      handEquipMid.unequip_from_slot .mainhand = .error handEquipCrash ∧
      Equipment.init.mainhandFig = none ∧
      handEquipCrash.mainhandFig = some ⟨0, 1, 4⟩ ∧
      handEquipCrash.mainhandFig ≠ Equipment.init.mainhandFig := by
  decide

/-- Unequipping an occupied hand slot always raises: the baseline reset
reads the missing `parent.fighter` attribute. -/
theorem unequip_hand_occupied_errors (e : Equipment) (slot : EquipmentSlot)
    (hhand : slot = EquipmentSlot.mainhand ∨ slot = EquipmentSlot.offhand)
    (hocc : (e.items.get slot).isSome = true) :
    ∃ epartial, e.unequip_from_slot slot = .error epartial := by
  rcases hit : e.items.get slot with _ | current
  · rw [hit] at hocc
    exact absurd hocc (by simp)
  · rcases hhand with h | h <;> subst h
    · exact ⟨({ e with items := e.items.set .mainhand none } : Equipment).on_unequip current,
        by unfold Equipment.unequip_from_slot; rw [hit]⟩
    · exact ⟨({ e with items := e.items.set .offhand none } : Equipment).on_unequip current,
        by unfold Equipment.unequip_from_slot; rw [hit]⟩

theorem unequip_hand_no_ok (e : Equipment) (slot : EquipmentSlot)
    (hhand : slot = EquipmentSlot.mainhand ∨ slot = EquipmentSlot.offhand)
    (hocc : (e.items.get slot).isSome = true) (e1 : Equipment) :
    e.unequip_from_slot slot ≠ .ok e1 := by
  intro hok
  obtain ⟨ep, herr⟩ := unequip_hand_occupied_errors e slot hhand hocc
  rw [herr] at hok
  exact Except.noConfusion hok

/-- C5 (amended): for the non-hand slots (head, armor, trinkets), equipping
into an empty slot and immediately unequipping restores the WHOLE equipment
state — in particular every derived bonus.  On the hand slots the claim
fails: `unequip_from_slot` raises `AttributeError` at the baseline reset
(lines 103-109 read `self.parent.fighter.strength`, and `Equipment.parent`
is the `Fighter`, which has no `fighter` attribute), after the slot was
cleared and `on_unequip` ran, so a hand-slot round trip never completes and
leaves the just-equipped weapon's figures in place; equipping over an
occupied hand slot aborts the same way inside the inner unequip. -/
theorem equip_unequip_roundtrip :
    (∀ (e : Equipment) (slot : EquipmentSlot) (item : Equippable) (e1 : Equipment),
      slot ≠ EquipmentSlot.mainhand → slot ≠ EquipmentSlot.offhand →
      e.items.get slot = none →
      e.equip_to_slot slot item = .ok e1 →
      e1.unequip_from_slot slot = .ok e) ∧
    (∀ (e : Equipment) (slot : EquipmentSlot),
      (slot = EquipmentSlot.mainhand ∨ slot = EquipmentSlot.offhand) →
      (e.items.get slot).isSome = true →
      ∃ epartial : Equipment, e.unequip_from_slot slot = .error epartial) := by
  constructor
  · intro e slot item e1 hm ho hempty hequip
    obtain ⟨⟨ih, ia, im, io, it1, it2⟩, sb, pb, ab, mb, arb, avb, spb, mf, of⟩ := e
    cases slot
    case mainhand => exact absurd rfl hm
    case offhand => exact absurd rfl ho
    all_goals (
      simp only [SlotMap.get] at hempty
      subst hempty
      cases item <;> (
        simp only [Equipment.equip_to_slot, Equipment.on_equip, SlotMap.get, SlotMap.set,
          Option.isSome_none, Bool.false_eq_true, if_false, Except.ok.injEq] at hequip
        subst hequip
        simp [Equipment.unequip_from_slot, Equipment.on_unequip, SlotMap.get, SlotMap.set]))
  · exact unequip_hand_occupied_errors

/-- Witness for the amended C5: an armor piece equipped into the empty
ARMOR slot and unequipped again restores the equipment state exactly, and
an occupied main hand makes the unequip raise. -/
theorem equip_unequip_roundtrip_witness :
    Equipment.init.items.get .armor = none ∧
      Equipment.init.equip_to_slot .armor (.armor lightArmorPiece) = .ok armorOnlyEquipment ∧
      armorOnlyEquipment.unequip_from_slot .armor = .ok Equipment.init ∧
      (handEquipMid.items.get .mainhand).isSome = true ∧
      (∃ epartial : Equipment, handEquipMid.unequip_from_slot .mainhand = .error epartial) :=
  ⟨by decide, by decide,
    equip_unequip_roundtrip.1 Equipment.init .armor (.armor lightArmorPiece) armorOnlyEquipment
      (by decide) (by decide) (by decide) (by decide),
    by decide,
    equip_unequip_roundtrip.2 handEquipMid .mainhand (Or.inl rfl) (by decide)⟩

/-- Embeds `Level.increase_perseverance` (`src/components/level.py`): the
attribute goes up by one, and `new_perseverance * current_level` bonus HP is
added to the max directly and to the current HP through the clamping
setter. -/
def FighterWorld.increase_perseverance (w : FighterWorld) : FighterWorld :=
  let f1 := { w.f with perseverance := w.f.perseverance + 1 }
  let amount := f1.perseverance * f1.level.current_level
  let w1 := { w with f := { f1 with max_hp := f1.max_hp + amount } }
  w1.hpSet (w1.f.hp + amount)

/-- Embeds `Level.increase_stat`: dispatch on the stat name string; unknown
names are ignored. -/
def FighterWorld.increase_stat (w : FighterWorld) (stat : String) : FighterWorld :=
  if stat = "Strength" then { w with f := { w.f with strength := w.f.strength + 1 } }
  else if stat = "Perseverance" then w.increase_perseverance
  else if stat = "Agility" then { w with f := { w.f with agility := w.f.agility + 1 } }
  else if stat = "Magic" then { w with f := { w.f with magic := w.f.magic + 1 } }
  else w

/-- The `for stat in stats` loop of `Level.increase_level`. -/
def FighterWorld.applyStats (w : FighterWorld) : List String → FighterWorld
  | [] => w
  | s :: rest => (w.increase_stat s).applyStats rest

/-- Embeds `Fighter.roll_hitpoints` (`src/components/fighter.py`
lines 247-251): `draw` models `randint(min_hp_per_level, max_hp_per_level)`;
the increment is added to max HP and to the private hp field directly,
bypassing the clamping setter. -/
def Fighter.roll_hitpoints (f : Fighter) (draw : Int) : Fighter :=
  let new_hp := draw + (f.perseverance + f.equipment.perseverance_bonus).fdiv 2
  { f with max_hp := f.max_hp + new_hp, hp := f.hp + new_hp }

/-- Embeds `Level.increase_level` (`src/components/level.py` lines 49-57):
subtract the current threshold cost from the XP, increment the level,
apply each chosen stat, write the (stray, modulo-based) `proficiency`
attribute onto the fighter, and re-roll hit points. -/
def FighterWorld.increase_level (w : FighterWorld) (stats : List String) (hpDraw : Int) :
    FighterWorld :=
  let l := w.f.level
  let l1 := { l with current_xp := l.current_xp - l.experience_to_next_level }
  let l2 := { l1 with current_level := l1.current_level + 1 }
  let w1 := { w with f := { w.f with level := l2 } }
  let w2 := w1.applyStats stats
  let w3 := { w2 with f := { w2.f with
    proficiency_attr := some (1 + w2.f.level.current_level % 4) } }
  { w3 with f := w3.f.roll_hitpoints hpDraw }

/-- `Level.add_xp` lifted to the fighter's world state. -/
def FighterWorld.add_xp (w : FighterWorld) (xp : Int) : FighterWorld :=
  { w with f := { w.f with level := w.f.level.add_xp xp } }

/-- How many entries of the stat list name the given attribute. -/
def countStat (s : String) : List String → Int
  | [] => 0
  | t :: rest => (if t = s then 1 else 0) + countStat s rest

theorem increase_stat_level (w : FighterWorld) (s : String) :
    (w.increase_stat s).f.level = w.f.level := by
  unfold FighterWorld.increase_stat FighterWorld.increase_perseverance FighterWorld.hpSet
    FighterWorld.die
  dsimp only
  split_ifs <;> rfl

theorem applyStats_level (l : List String) :
    ∀ w : FighterWorld, (w.applyStats l).f.level = w.f.level := by
  induction l with
  | nil => intro w; rfl
  | cons s rest ih =>
      intro w
      show ((w.increase_stat s).applyStats rest).f.level = _
      rw [ih, increase_stat_level]

theorem increase_level_level (w : FighterWorld) (stats : List String) (hpDraw : Int) :
    (w.increase_level stats hpDraw).f.level =
      { w.f.level with
          current_xp := w.f.level.current_xp - w.f.level.experience_to_next_level
          current_level := w.f.level.current_level + 1 } := by
  unfold FighterWorld.increase_level Fighter.roll_hitpoints
  dsimp only
  rw [applyStats_level]

theorem increase_stat_strength (w : FighterWorld) (s : String) :
    (w.increase_stat s).f.strength = w.f.strength + (if s = "Strength" then 1 else 0) := by
  unfold FighterWorld.increase_stat FighterWorld.increase_perseverance FighterWorld.hpSet
    FighterWorld.die
  dsimp only
  split_ifs <;> simp

theorem increase_stat_perseverance (w : FighterWorld) (s : String) :
    (w.increase_stat s).f.perseverance =
      w.f.perseverance + (if s = "Perseverance" then 1 else 0) := by
  unfold FighterWorld.increase_stat FighterWorld.increase_perseverance FighterWorld.hpSet
    FighterWorld.die
  dsimp only
  split_ifs <;> simp_all

theorem increase_stat_agility (w : FighterWorld) (s : String) :
    (w.increase_stat s).f.agility = w.f.agility + (if s = "Agility" then 1 else 0) := by
  unfold FighterWorld.increase_stat FighterWorld.increase_perseverance FighterWorld.hpSet
    FighterWorld.die
  dsimp only
  split_ifs <;> simp_all

theorem increase_stat_magic (w : FighterWorld) (s : String) :
    (w.increase_stat s).f.magic = w.f.magic + (if s = "Magic" then 1 else 0) := by
  unfold FighterWorld.increase_stat FighterWorld.increase_perseverance FighterWorld.hpSet
    FighterWorld.die
  dsimp only
  split_ifs <;> simp_all

theorem applyStats_strength (l : List String) :
    ∀ w : FighterWorld, (w.applyStats l).f.strength = w.f.strength + countStat "Strength" l := by
  induction l with
  | nil => intro w; simp [countStat, FighterWorld.applyStats]
  | cons s rest ih =>
      intro w
      show ((w.increase_stat s).applyStats rest).f.strength = _
      rw [ih, increase_stat_strength, countStat]
      omega

theorem applyStats_perseverance (l : List String) :
    ∀ w : FighterWorld,
      (w.applyStats l).f.perseverance = w.f.perseverance + countStat "Perseverance" l := by
  induction l with
  | nil => intro w; simp [countStat, FighterWorld.applyStats]
  | cons s rest ih =>
      intro w
      show ((w.increase_stat s).applyStats rest).f.perseverance = _
      rw [ih, increase_stat_perseverance, countStat]
      omega

theorem applyStats_agility (l : List String) :
    ∀ w : FighterWorld, (w.applyStats l).f.agility = w.f.agility + countStat "Agility" l := by
  induction l with
  | nil => intro w; simp [countStat, FighterWorld.applyStats]
  | cons s rest ih =>
      intro w
      show ((w.increase_stat s).applyStats rest).f.agility = _
      rw [ih, increase_stat_agility, countStat]
      omega

theorem applyStats_magic (l : List String) :
    ∀ w : FighterWorld, (w.applyStats l).f.magic = w.f.magic + countStat "Magic" l := by
  induction l with
  | nil => intro w; simp [countStat, FighterWorld.applyStats]
  | cons s rest ih =>
      intro w
      show ((w.increase_stat s).applyStats rest).f.magic = _
      rw [ih, increase_stat_magic, countStat]
      omega

theorem increase_level_strength (w : FighterWorld) (stats : List String) (hpDraw : Int) :
    (w.increase_level stats hpDraw).f.strength = w.f.strength + countStat "Strength" stats := by
  unfold FighterWorld.increase_level Fighter.roll_hitpoints
  dsimp only
  rw [applyStats_strength]

theorem increase_level_perseverance (w : FighterWorld) (stats : List String) (hpDraw : Int) :
    (w.increase_level stats hpDraw).f.perseverance =
      w.f.perseverance + countStat "Perseverance" stats := by
  unfold FighterWorld.increase_level Fighter.roll_hitpoints
  dsimp only
  rw [applyStats_perseverance]

theorem increase_level_agility (w : FighterWorld) (stats : List String) (hpDraw : Int) :
    (w.increase_level stats hpDraw).f.agility = w.f.agility + countStat "Agility" stats := by
  unfold FighterWorld.increase_level Fighter.roll_hitpoints
  dsimp only
  rw [applyStats_agility]

theorem increase_level_magic (w : FighterWorld) (stats : List String) (hpDraw : Int) :
    (w.increase_level stats hpDraw).f.magic = w.f.magic + countStat "Magic" stats := by
  unfold FighterWorld.increase_level Fighter.roll_hitpoints
  dsimp only
  rw [applyStats_magic]

theorem increase_level_fields (w : FighterWorld) (stats : List String) (hpDraw : Int) :
    (w.increase_level stats hpDraw).f.level.current_xp =
      w.f.level.current_xp -
        (w.f.level.level_up_base + w.f.level.current_level * w.f.level.level_up_factor) ∧
    (w.increase_level stats hpDraw).f.level.current_level = w.f.level.current_level + 1 ∧
    (w.increase_level stats hpDraw).f.level.level_up_base = w.f.level.level_up_base ∧
    (w.increase_level stats hpDraw).f.level.level_up_factor = w.f.level.level_up_factor := by
  rw [increase_level_level w stats hpDraw]
  exact ⟨rfl, rfl, rfl, rfl⟩

theorem add_xp_fields (w : FighterWorld) (g : Int)
    (hbase : w.f.level.level_up_base ≠ 0) (hg : g ≠ 0) :
    (w.add_xp g).f.level.current_xp = w.f.level.current_xp + g ∧
    (w.add_xp g).f.level.current_level = w.f.level.current_level ∧
    (w.add_xp g).f.level.level_up_base = w.f.level.level_up_base ∧
    (w.add_xp g).f.level.level_up_factor = w.f.level.level_up_factor := by
  unfold FighterWorld.add_xp Level.add_xp
  rw [if_neg (by tauto)]
  exact ⟨rfl, rfl, rfl, rfl⟩

/-- C7: with a configured nonzero level-up cost, one `add_xp` call whose
grant crosses exactly two level-up thresholds leads — applying
`increase_level` once per crossed threshold, each subtracting that
threshold's cost, incrementing the level and adding one point per chosen
stat — to exactly two level increments (`requires_level_up` holds before
each of the two and fails afterwards) and a final state with
`current_xp < experience_to_next_level`. -/
theorem add_xp_two_level_jumps
    (w : FighterWorld) (g : Int) (stats1 stats2 : List String) (d1 d2 : Int)
    (hbase : w.f.level.level_up_base ≠ 0) (hg : g ≠ 0)
    (h1 : w.f.level.experience_to_next_level ≤ w.f.level.current_xp + g)
    (h2 : w.f.level.level_up_base + (w.f.level.current_level + 1) * w.f.level.level_up_factor ≤
      w.f.level.current_xp + g - w.f.level.experience_to_next_level)
    (h3 : w.f.level.current_xp + g - w.f.level.experience_to_next_level -
        (w.f.level.level_up_base + (w.f.level.current_level + 1) * w.f.level.level_up_factor) <
      w.f.level.level_up_base + (w.f.level.current_level + 2) * w.f.level.level_up_factor) :
    ((w.add_xp g).f.level.requires_level_up = true) ∧
      (((w.add_xp g).increase_level stats1 d1).f.level.requires_level_up = true) ∧
      ((((w.add_xp g).increase_level stats1 d1).increase_level stats2 d2).f.level.requires_level_up
        = false) ∧
      ((((w.add_xp g).increase_level stats1 d1).increase_level stats2 d2).f.level.current_level =
        w.f.level.current_level + 2) ∧
      ((((w.add_xp g).increase_level stats1 d1).increase_level stats2 d2).f.level.current_xp <
        (((w.add_xp g).increase_level stats1 d1).increase_level
          stats2 d2).f.level.experience_to_next_level) ∧
      ((((w.add_xp g).increase_level stats1 d1).increase_level stats2 d2).f.strength =
        w.f.strength + countStat "Strength" stats1 + countStat "Strength" stats2) ∧
      ((((w.add_xp g).increase_level stats1 d1).increase_level stats2 d2).f.perseverance =
        w.f.perseverance + countStat "Perseverance" stats1 + countStat "Perseverance" stats2) ∧
      ((((w.add_xp g).increase_level stats1 d1).increase_level stats2 d2).f.agility =
        w.f.agility + countStat "Agility" stats1 + countStat "Agility" stats2) ∧
      ((((w.add_xp g).increase_level stats1 d1).increase_level stats2 d2).f.magic =
        w.f.magic + countStat "Magic" stats1 + countStat "Magic" stats2) := by
  obtain ⟨hx1, hc1, hb1, hf1⟩ := add_xp_fields w g hbase hg
  obtain ⟨hx2, hc2, hb2, hf2⟩ := increase_level_fields (w.add_xp g) stats1 d1
  obtain ⟨hx3, hc3, hb3, hf3⟩ :=
    increase_level_fields ((w.add_xp g).increase_level stats1 d1) stats2 d2
  have hs0 : (w.add_xp g).f.strength = w.f.strength := rfl
  have hp0 : (w.add_xp g).f.perseverance = w.f.perseverance := rfl
  have ha0 : (w.add_xp g).f.agility = w.f.agility := rfl
  have hm0 : (w.add_xp g).f.magic = w.f.magic := rfl
  simp only [Level.experience_to_next_level] at h1 h2 h3
  refine ⟨?_, ?_, ?_, ?_, ?_, ?_, ?_, ?_, ?_⟩
  · simp only [Level.requires_level_up, Level.experience_to_next_level, decide_eq_true_eq]
    rw [hx1, hc1, hb1, hf1]
    omega
  · simp only [Level.requires_level_up, Level.experience_to_next_level, decide_eq_true_eq]
    rw [hx2, hc2, hb2, hf2, hx1, hc1, hb1, hf1]
    have hr : (w.f.level.current_level + 1) * w.f.level.level_up_factor =
        w.f.level.current_level * w.f.level.level_up_factor + w.f.level.level_up_factor := by
      ring
    omega
  · simp only [Level.requires_level_up, Level.experience_to_next_level,
      decide_eq_false_iff_not, not_le]
    rw [hx3, hc3, hb3, hf3, hx2, hc2, hb2, hf2, hx1, hc1, hb1, hf1]
    have hr1 : (w.f.level.current_level + 1) * w.f.level.level_up_factor =
        w.f.level.current_level * w.f.level.level_up_factor + w.f.level.level_up_factor := by
      ring
    have hr2 : (w.f.level.current_level + 2) * w.f.level.level_up_factor =
        w.f.level.current_level * w.f.level.level_up_factor + w.f.level.level_up_factor +
          w.f.level.level_up_factor := by
      ring
    have hr3 : (w.f.level.current_level + 1 + 1) * w.f.level.level_up_factor =
        w.f.level.current_level * w.f.level.level_up_factor + w.f.level.level_up_factor +
          w.f.level.level_up_factor := by
      ring
    omega
  · rw [hc3, hc2, hc1]
    omega
  · simp only [Level.experience_to_next_level]
    rw [hx3, hc3, hb3, hf3, hx2, hc2, hb2, hf2, hx1, hc1, hb1, hf1]
    have hr1 : (w.f.level.current_level + 1) * w.f.level.level_up_factor =
        w.f.level.current_level * w.f.level.level_up_factor + w.f.level.level_up_factor := by
      ring
    have hr2 : (w.f.level.current_level + 2) * w.f.level.level_up_factor =
        w.f.level.current_level * w.f.level.level_up_factor + w.f.level.level_up_factor +
          w.f.level.level_up_factor := by
      ring
    have hr3 : (w.f.level.current_level + 1 + 1) * w.f.level.level_up_factor =
        w.f.level.current_level * w.f.level.level_up_factor + w.f.level.level_up_factor +
          w.f.level.level_up_factor := by
      ring
    omega
  · rw [increase_level_strength, increase_level_strength, hs0]
  · rw [increase_level_perseverance, increase_level_perseverance, hp0]
  · rw [increase_level_agility, increase_level_agility, ha0]
  · rw [increase_level_magic, increase_level_magic, hm0]

/-- Witness for C7: granting 1000 XP to a level-1 record with base 200 and
factor 150 (thresholds 350, then 500, then 650) crosses exactly the first
two thresholds. -/
theorem add_xp_two_level_jumps_witness :
    sampleWorldC3.f.level.level_up_base ≠ 0 ∧ (1000 : Int) ≠ 0 ∧
      sampleWorldC3.f.level.experience_to_next_level ≤
        sampleWorldC3.f.level.current_xp + 1000 ∧
      ((sampleWorldC3.add_xp 1000).f.level.requires_level_up = true) ∧
      (((sampleWorldC3.add_xp 1000).increase_level
          ["Strength", "Perseverance", "Agility"] 5).f.level.requires_level_up = true) ∧
      ((((sampleWorldC3.add_xp 1000).increase_level
          ["Strength", "Perseverance", "Agility"] 5).increase_level
          ["Magic", "Strength", "Strength"] 7).f.level.requires_level_up = false) ∧
      ((((sampleWorldC3.add_xp 1000).increase_level
          ["Strength", "Perseverance", "Agility"] 5).increase_level
          ["Magic", "Strength", "Strength"] 7).f.level.current_level =
        sampleWorldC3.f.level.current_level + 2) ∧
      ((((sampleWorldC3.add_xp 1000).increase_level
          ["Strength", "Perseverance", "Agility"] 5).increase_level
          ["Magic", "Strength", "Strength"] 7).f.level.current_xp <
        (((sampleWorldC3.add_xp 1000).increase_level
          ["Strength", "Perseverance", "Agility"] 5).increase_level
          ["Magic", "Strength", "Strength"] 7).f.level.experience_to_next_level) ∧
      ((((sampleWorldC3.add_xp 1000).increase_level
          ["Strength", "Perseverance", "Agility"] 5).increase_level
          ["Magic", "Strength", "Strength"] 7).f.strength =
        sampleWorldC3.f.strength + countStat "Strength" ["Strength", "Perseverance", "Agility"] +
          countStat "Strength" ["Magic", "Strength", "Strength"]) :=
  ⟨by decide, by decide, by decide,
    (add_xp_two_level_jumps sampleWorldC3 1000 ["Strength", "Perseverance", "Agility"]
      ["Magic", "Strength", "Strength"] 5 7 (by decide) (by decide) (by decide) (by decide)
      (by decide)).1,
    (add_xp_two_level_jumps sampleWorldC3 1000 ["Strength", "Perseverance", "Agility"]
      ["Magic", "Strength", "Strength"] 5 7 (by decide) (by decide) (by decide) (by decide)
      (by decide)).2.1,
    (add_xp_two_level_jumps sampleWorldC3 1000 ["Strength", "Perseverance", "Agility"]
      ["Magic", "Strength", "Strength"] 5 7 (by decide) (by decide) (by decide) (by decide)
      (by decide)).2.2.1,
    (add_xp_two_level_jumps sampleWorldC3 1000 ["Strength", "Perseverance", "Agility"]
      ["Magic", "Strength", "Strength"] 5 7 (by decide) (by decide) (by decide) (by decide)
      (by decide)).2.2.2.1,
    (add_xp_two_level_jumps sampleWorldC3 1000 ["Strength", "Perseverance", "Agility"]
      ["Magic", "Strength", "Strength"] 5 7 (by decide) (by decide) (by decide) (by decide)
      (by decide)).2.2.2.2.1,
    (add_xp_two_level_jumps sampleWorldC3 1000 ["Strength", "Perseverance", "Agility"]
      ["Magic", "Strength", "Strength"] 5 7 (by decide) (by decide) (by decide) (by decide)
      (by decide)).2.2.2.2.2.1⟩

/-- The combat-mode fields of the engine: the `in_combat` flag and the
`active_enemies` reference to the locked enemy roster (`none` when no roster
is locked). -/
structure EngineCombatState where
  in_combat : Bool
  active_enemies : Option Nat
deriving DecidableEq, Repr

/-- Embeds the combat-state effect of `BumpAction.perform`
(`src/actions.py` lines 171-189).  Map entities are identified by ids and
the `is` comparisons become id equality.  When no actor stands at the
destination the action delegates to `MovementAction`, which never touches
the combat fields. -/
def bumpPerform (s : EngineCombatState) (entity : Nat) (targetActor : Option Nat)
    (player : Nat) : EngineCombatState :=
  match targetActor with
  | some target =>
      let s1 := { s with in_combat := true }
      if target ≠ player ∧ entity ≠ player then s1
      else
        let s2 := { s1 with in_combat := true }
        if entity = player then { s2 with active_enemies := some target }
        else { s2 with active_enemies := some entity }
  | none => s

/-- C9 (code evaluated at the failing input): a bump between two actors of
ids 1 and 2, both distinct from the player id 0, leaves the engine with
`in_combat = true` — the assignment at the top of `BumpAction.perform` runs
BEFORE the player check, so the claim that `in_combat` stays false for
non-player bumps is violated — while indeed no roster is locked; a bump
between the player and a hostile group (in either direction) sets combat
mode and locks onto that group. -/
theorem bump_between_enemies_sets_in_combat :
    bumpPerform ⟨false, none⟩ 1 (some 2) 0 = ⟨true, none⟩ ∧
      (1 : Nat) ≠ 0 ∧ (2 : Nat) ≠ 0 ∧
      bumpPerform ⟨false, none⟩ 0 (some 2) 0 = ⟨true, some 2⟩ ∧
      bumpPerform ⟨false, none⟩ 2 (some 0) 0 = ⟨true, some 2⟩ := by
  decide

/-- One equip or unequip operation on an equipment set. -/
inductive EquipOp
  | equipOp (slot : EquipmentSlot) (item : Equippable)
  | unequipOp (slot : EquipmentSlot)
deriving DecidableEq, Repr

/-- The slot an operation directly targets. -/
def EquipOp.slot : EquipOp → EquipmentSlot
  | .equipOp s _ => s
  | .unequipOp s => s

/-- Runs one operation; `none` models the `AttributeError` paths of the
source (the run aborts, so the partially-mutated state is not carried on). -/
def applyEquipOp (e : Equipment) : EquipOp → Option Equipment
  | .equipOp slot item =>
      match e.equip_to_slot slot item with
      | .ok e1 => some e1
      | .error _ => none
  | .unequipOp slot =>
      match e.unequip_from_slot slot with
      | .ok e1 => some e1
      | .error _ => none

def applyEquipOps (e : Equipment) : List EquipOp → Option Equipment
  | [] => some e
  | op :: rest =>
      match applyEquipOp e op with
      | none => none
      | some e1 => applyEquipOps e1 rest

/-- The main-hand slot has never been assigned: no item and no figures. -/
def MainhandUnset (e : Equipment) : Prop :=
  e.items.get .mainhand = none ∧ e.mainhandFig = none

/-- The off-hand slot has never been assigned: no item and no figures. -/
def OffhandUnset (e : Equipment) : Prop :=
  e.items.get .offhand = none ∧ e.offhandFig = none

theorem unequip_preserves_mainhand (e : Equipment) (slot : EquipmentSlot) (e1 : Equipment)
    (h : slot ≠ EquipmentSlot.mainhand)
    (hok : e.unequip_from_slot slot = .ok e1) :
    e1.items.get .mainhand = e.items.get .mainhand ∧ e1.mainhandFig = e.mainhandFig := by
  obtain ⟨⟨ih, ia, im, io, it1, it2⟩, sb, pb, ab, mb, arb, avb, spb, mf, of⟩ := e
  cases slot
  case mainhand => exact absurd rfl h
  all_goals (
    unfold Equipment.unequip_from_slot at hok
    dsimp only [SlotMap.get] at hok
    split at hok <;>
      first
      | exact Except.noConfusion hok
      | (simp only [Except.ok.injEq] at hok
         subst hok
         first
         | exact ⟨rfl, rfl⟩
         | (unfold Equipment.on_unequip
            split <;> exact ⟨rfl, rfl⟩)))

theorem unequip_preserves_offhand (e : Equipment) (slot : EquipmentSlot) (e1 : Equipment)
    (h : slot ≠ EquipmentSlot.offhand)
    (hok : e.unequip_from_slot slot = .ok e1) :
    e1.items.get .offhand = e.items.get .offhand ∧ e1.offhandFig = e.offhandFig := by
  obtain ⟨⟨ih, ia, im, io, it1, it2⟩, sb, pb, ab, mb, arb, avb, spb, mf, of⟩ := e
  cases slot
  case offhand => exact absurd rfl h
  all_goals (
    unfold Equipment.unequip_from_slot at hok
    dsimp only [SlotMap.get] at hok
    split at hok <;>
      first
      | exact Except.noConfusion hok
      | (simp only [Except.ok.injEq] at hok
         subst hok
         first
         | exact ⟨rfl, rfl⟩
         | (unfold Equipment.on_unequip
            split <;> exact ⟨rfl, rfl⟩)))

theorem applyEquipOp_mainhand_unset (e : Equipment) (op : EquipOp) (e' : Equipment)
    (hslot : op.slot ≠ EquipmentSlot.mainhand)
    (hinv : MainhandUnset e) (happ : applyEquipOp e op = some e') : MainhandUnset e' := by
  obtain ⟨hitem, hfig⟩ := hinv
  cases op with
  | unequipOp slot =>
      simp only [EquipOp.slot] at hslot
      simp only [applyEquipOp] at happ
      rcases hok : e.unequip_from_slot slot with e1 | e1 <;> rw [hok] at happ
      · exact Option.noConfusion happ
      · simp only [Option.some.injEq] at happ
        subst happ
        obtain ⟨h1, h2⟩ := unequip_preserves_mainhand e slot e1 hslot hok
        exact ⟨h1.trans hitem, h2.trans hfig⟩
  | equipOp slot item =>
      simp only [EquipOp.slot] at hslot
      rcases hstep : (if (e.items.get slot).isSome = true
          then e.unequip_from_slot slot else .ok e) with e0 | e0 <;>
        simp only [applyEquipOp, Equipment.equip_to_slot, hstep] at happ
      · exact Option.noConfusion happ
      · have h0 : e0.items.get .mainhand = none ∧ e0.mainhandFig = none := by
          by_cases hocc : (e.items.get slot).isSome = true
          · rw [if_pos hocc] at hstep
            obtain ⟨h1, h2⟩ := unequip_preserves_mainhand e slot e0 hslot hstep
            exact ⟨h1.trans hitem, h2.trans hfig⟩
          · rw [if_neg hocc] at hstep
            cases Except.ok.inj hstep
            exact ⟨hitem, hfig⟩
        clear hstep hitem hfig
        cases slot
        case mainhand => exact absurd rfl hslot
        all_goals (
          obtain ⟨g1, g2⟩ := h0
          obtain ⟨⟨ih, ia, im, io, it1, it2⟩, sb, pb, ab, mb, arb, avb, spb, mf, of⟩ := e0
          simp only [SlotMap.get] at g1 g2
          subst g1
          subst g2
          cases item <;>
            simp only [SlotMap.set, SlotMap.get, Equipment.on_equip, Option.isSome_none,
              Bool.false_eq_true, and_false, if_false, Option.some.injEq] at happ <;>
            (first
              | exact Option.noConfusion happ
              | (subst happ
                 exact ⟨rfl, rfl⟩)))

theorem applyEquipOp_offhand_unset (e : Equipment) (op : EquipOp) (e' : Equipment)
    (hslot : op.slot ≠ EquipmentSlot.offhand)
    (hinv : OffhandUnset e) (happ : applyEquipOp e op = some e') : OffhandUnset e' := by
  obtain ⟨hitem, hfig⟩ := hinv
  cases op with
  | unequipOp slot =>
      simp only [EquipOp.slot] at hslot
      simp only [applyEquipOp] at happ
      rcases hok : e.unequip_from_slot slot with e1 | e1 <;> rw [hok] at happ
      · exact Option.noConfusion happ
      · simp only [Option.some.injEq] at happ
        subst happ
        obtain ⟨h1, h2⟩ := unequip_preserves_offhand e slot e1 hslot hok
        exact ⟨h1.trans hitem, h2.trans hfig⟩
  | equipOp slot item =>
      simp only [EquipOp.slot] at hslot
      rcases hstep : (if (e.items.get slot).isSome = true
          then e.unequip_from_slot slot else .ok e) with e0 | e0 <;>
        simp only [applyEquipOp, Equipment.equip_to_slot, hstep] at happ
      · exact Option.noConfusion happ
      · have h0 : e0.items.get .offhand = none ∧ e0.offhandFig = none := by
          by_cases hocc : (e.items.get slot).isSome = true
          · rw [if_pos hocc] at hstep
            obtain ⟨h1, h2⟩ := unequip_preserves_offhand e slot e0 hslot hstep
            exact ⟨h1.trans hitem, h2.trans hfig⟩
          · rw [if_neg hocc] at hstep
            cases Except.ok.inj hstep
            exact ⟨hitem, hfig⟩
        clear hstep hitem hfig
        cases slot
        case offhand => exact absurd rfl hslot
        all_goals (
          obtain ⟨g1, g2⟩ := h0
          obtain ⟨⟨ih, ia, im, io, it1, it2⟩, sb, pb, ab, mb, arb, avb, spb, mf, of⟩ := e0
          simp only [SlotMap.get] at g1 g2
          subst g1
          subst g2
          cases item <;>
            simp only [SlotMap.set, SlotMap.get, Equipment.on_equip, Option.isSome_none,
              Bool.false_eq_true, and_false, if_false, Option.some.injEq] at happ <;>
            (first
              | exact Option.noConfusion happ
              | (subst happ
                 exact ⟨rfl, rfl⟩)))

theorem applyEquipOps_mainhand_unset (ops : List EquipOp) :
    ∀ e e' : Equipment, (∀ op ∈ ops, op.slot ≠ EquipmentSlot.mainhand) →
      MainhandUnset e → applyEquipOps e ops = some e' → MainhandUnset e' := by
  induction ops with
  | nil =>
      intro e e' _ hinv happ
      simp only [applyEquipOps, Option.some.injEq] at happ
      exact happ ▸ hinv
  | cons op rest ih =>
      intro e e' hops hinv happ
      simp only [applyEquipOps] at happ
      rcases hop : applyEquipOp e op with _ | e1
      · rw [hop] at happ
        exact Option.noConfusion happ
      · rw [hop] at happ
        exact ih e1 e' (fun o ho => hops o (List.mem_cons_of_mem op ho))
          (applyEquipOp_mainhand_unset e op e1 (hops op (List.mem_cons_self op rest)) hinv hop)
          happ

theorem applyEquipOps_offhand_unset (ops : List EquipOp) :
    ∀ e e' : Equipment, (∀ op ∈ ops, op.slot ≠ EquipmentSlot.offhand) →
      OffhandUnset e → applyEquipOps e ops = some e' → OffhandUnset e' := by
  induction ops with
  | nil =>
      intro e e' _ hinv happ
      simp only [applyEquipOps, Option.some.injEq] at happ
      exact happ ▸ hinv
  | cons op rest ih =>
      intro e e' hops hinv happ
      simp only [applyEquipOps] at happ
      rcases hop : applyEquipOp e op with _ | e1
      · rw [hop] at happ
        exact Option.noConfusion happ
      · rw [hop] at happ
        exact ih e1 e' (fun o ho => hops o (List.mem_cons_of_mem op ho))
          (applyEquipOp_offhand_unset e op e1 (hops op (List.mem_cons_self op rest)) hinv hop)
          happ

/-- C10: `Equipment.__init__` assigns only the items dict and the seven
bonus totals — the six per-slot weapon figures stay unset — and for a
fighter whose main-hand (resp. off-hand) slot was never the direct target
of an equip or unequip, those figures are still unset after any sequence of
operations on the other slots, so reading `mainhand_attack_bonus` /
`offhand_attack_bonus` or calling `roll_weapon_damage` for that slot raises
`AttributeError` (modelled as `none`) instead of returning a baseline; a
first equip of a weapon into the main hand does assign the figures. -/
theorem hand_figures_unset_until_first_assignment :
    (Equipment.init.mainhandFig = none ∧ Equipment.init.offhandFig = none ∧
      Equipment.init.strength_bonus = 0 ∧ Equipment.init.perseverance_bonus = 0 ∧
      Equipment.init.agility_bonus = 0 ∧ Equipment.init.magic_bonus = 0 ∧
      Equipment.init.armor_bonus = 0 ∧ Equipment.init.avoidance_bonus = 0 ∧
      Equipment.init.spell_attack_bonus = 0 ∧
      (∀ slot, Equipment.init.items.get slot = none)) ∧
    (∀ (ops : List EquipOp) (e' : Equipment),
      (∀ op ∈ ops, op.slot ≠ EquipmentSlot.mainhand) →
      applyEquipOps Equipment.init ops = some e' →
      e'.mainhandFig = none ∧
        ∀ f : Fighter, f.equipment = e' →
          f.mainhand_attack_bonus? = none ∧
            ∀ d : Int, f.roll_weapon_damage? .mainhand d = none) ∧
    (∀ (ops : List EquipOp) (e' : Equipment),
      (∀ op ∈ ops, op.slot ≠ EquipmentSlot.offhand) →
      applyEquipOps Equipment.init ops = some e' →
      e'.offhandFig = none ∧ e'.items.get .offhand = none ∧
        ∀ f : Fighter, f.equipment = e' →
          f.offhand_attack_bonus? = none ∧
            ∀ d : Int, f.roll_weapon_damage? .offhand d = none) ∧
    (∀ (e : Equipment) (w : Weapon) (e' : Equipment),
      e.equip_to_slot .mainhand (.weapon w) = .ok e' →
        e'.mainhandFig.isSome = true) := by
  refine ⟨⟨rfl, rfl, rfl, rfl, rfl, rfl, rfl, rfl, rfl, fun slot => ?_⟩, ?_, ?_, ?_⟩
  · cases slot <;> rfl
  · intro ops e' hops happ
    obtain ⟨hitem, hfig⟩ :=
      applyEquipOps_mainhand_unset ops Equipment.init e' hops ⟨rfl, rfl⟩ happ
    refine ⟨hfig, fun f hf => ?_⟩
    constructor
    · simp [Fighter.mainhand_attack_bonus?, hf, hfig]
    · intro d
      simp [Fighter.roll_weapon_damage?, hf, hfig]
  · intro ops e' hops happ
    obtain ⟨hitem, hfig⟩ :=
      applyEquipOps_offhand_unset ops Equipment.init e' hops ⟨rfl, rfl⟩ happ
    refine ⟨hfig, hitem, fun f hf => ?_⟩
    constructor
    · simp [Fighter.offhand_attack_bonus?, hf, hfig]
    · intro d
      simp [Fighter.roll_weapon_damage?, hf, hitem]
  · intro e w e' happ
    rcases hstep : (if (e.items.get .mainhand).isSome = true
        then e.unequip_from_slot .mainhand else .ok e) with e0 | e0 <;>
      simp only [Equipment.equip_to_slot, hstep] at happ
    · exact Except.noConfusion happ
    · split at happ
      · rename_i hcasc
        refine absurd happ (unequip_hand_no_ok _ .offhand (Or.inr rfl) ?_ e')
        exact hcasc.2
      · simp only [Except.ok.injEq] at happ
        subst happ
        rfl

/-- One equip on the ARMOR slot only: neither hand slot is touched. -/
def armorOnlyOps : List EquipOp := [.equipOp .armor (.armor lightArmorPiece)]

/-- A fighter owning `armorOnlyEquipment`, with both hand slots untouched. -/
def armorOnlyFighter : Fighter where
  fighter_class := .rogue
  strength := 3
  perseverance := 2
  agility := 6
  magic := 1
  min_hp_per_level := 10
  max_hp_per_level := 15
  hp := 12
  max_hp := 12
  level := ⟨1, 0, 200, 150, 0⟩
  equipment := armorOnlyEquipment
  weapon_crit_threshold := 20
  spell_crit_threshold := 20
  ownAi := true
  groupAi := true
  proficiency_attr := none

/-- Witness for C10: after a single equip on the ARMOR slot, both hand
slots' figures stay unset and the corresponding reads raise. -/
theorem hand_figures_unset_witness :
    (∀ op ∈ armorOnlyOps, op.slot ≠ EquipmentSlot.mainhand) ∧
      (∀ op ∈ armorOnlyOps, op.slot ≠ EquipmentSlot.offhand) ∧
      applyEquipOps Equipment.init armorOnlyOps = some armorOnlyEquipment ∧
      armorOnlyEquipment.mainhandFig = none ∧
      armorOnlyFighter.mainhand_attack_bonus? = none ∧
      armorOnlyFighter.roll_weapon_damage? .mainhand 3 = none ∧
      armorOnlyEquipment.offhandFig = none ∧
      armorOnlyFighter.offhand_attack_bonus? = none ∧
      armorOnlyFighter.roll_weapon_damage? .offhand 3 = none :=
  ⟨by decide, by decide, by decide,
    (hand_figures_unset_until_first_assignment.2.1 armorOnlyOps armorOnlyEquipment
      (by decide) (by decide)).1,
    ((hand_figures_unset_until_first_assignment.2.1 armorOnlyOps armorOnlyEquipment
      (by decide) (by decide)).2 armorOnlyFighter rfl).1,
    ((hand_figures_unset_until_first_assignment.2.1 armorOnlyOps armorOnlyEquipment
      (by decide) (by decide)).2 armorOnlyFighter rfl).2 3,
    (hand_figures_unset_until_first_assignment.2.2.1 armorOnlyOps armorOnlyEquipment
      (by decide) (by decide)).1,
    ((hand_figures_unset_until_first_assignment.2.2.1 armorOnlyOps armorOnlyEquipment
      (by decide) (by decide)).2.2 armorOnlyFighter rfl).1,
    ((hand_figures_unset_until_first_assignment.2.2.1 armorOnlyOps armorOnlyEquipment
      (by decide) (by decide)).2.2 armorOnlyFighter rfl).2 3⟩

end RoguePython
